import Mathlib

/-!
Shallow embedding of the ChatKitPanel component (`src/app/page.tsx`) of the
openai-chatkit-starter-app fork.  The component's pure logic is translated
into executable Lean definitions: JSON payload inspection
(`extractErrorDetail`), the session-credential exchange (`getClientSecret`),
the client-tool router (`onClientTool`), the script availability monitor's
event handlers, the reset handler (`handleResetChat`), the response-start
hook, and the derived view model of the render step.

JavaScript runtime values decoded from JSON are modelled by the inductive
`JValue`.  JSON numbers are modelled as integers (no claim exercises
fractional numbers).  Property access on a parsed JSON object follows
`JSON.parse` semantics: for a duplicated key the last occurrence wins.
-/

inductive JValue where
  | str (s : String)
  | num (n : Int)
  | bool (b : Bool)
  | null
  | obj (fields : List (String × JValue))
  | arr (elems : List JValue)

/-- JavaScript property lookup on a decoded JSON object: the value bound to
`key`, the last occurrence winning as in `JSON.parse`. -/
def getField (fields : List (String × JValue)) (key : String) : Option JValue :=
  (fields.reverse.find? (fun p => p.fst = key)).map (fun p => p.snd)

/-- JavaScript property access `v[key]` on a decoded value that is not
`null`: defined only when `v` is an object; on every other non-`null`
value the properties the code looks up (`error`, `details`, `message`,
`client_secret`, `theme`, `fact_id`, `fact_text`) are absent, i.e.
`undefined`.  Access on `null` throws a `TypeError` in JavaScript and is
modelled separately at its one occurrence (the `client_secret` read in the
success branch of `getClientSecret`); every other access in the source is
guarded by a truthiness test that filters `null` out first. -/
def propGet (v : JValue) (key : String) : Option JValue :=
  match v with
  | JValue.obj fields => getField fields key
  | _ => none

/-- JavaScript truthiness of a decoded JSON value. -/
def jsTruthy : JValue → Bool
  | JValue.str s => !s.isEmpty
  | JValue.num n => n != 0
  | JValue.bool b => b
  | JValue.null => false
  | JValue.obj _ => true
  | JValue.arr _ => true

mutual

/-- JavaScript `String(v)` coercion of a decoded JSON value
(`String(5) = "5"`, `String({}) = "[object Object]"`, arrays join their
elements with commas, a `null` element rendering as the empty string). -/
def jsToString : JValue → String
  | JValue.str s => s
  | JValue.num n => toString n
  | JValue.bool b => cond b "true" "false"
  | JValue.null => "null"
  | JValue.obj _ => "[object Object]"
  | JValue.arr elems => String.intercalate "," (jsArrParts elems)

def jsArrParts : List JValue → List String
  | [] => []
  | JValue.null :: rest => "" :: jsArrParts rest
  | v :: rest => jsToString v :: jsArrParts rest

end

/-- The characters matched by the JavaScript regular-expression class `\s`
(whitespace and line terminators), as used by `text.replace(/\s+/g, " ")`
and by `String.prototype.trim`. -/
def isJsWhitespace (c : Char) : Bool :=
  c = ' ' || c = '\t' || c = '\n' || c = '\u000B' || c = '\u000C' || c = '\r' ||
  c = '\u00A0' || c = '\u1680' || ('\u2000' ≤ c && c ≤ '\u200A') ||
  c = '\u2028' || c = '\u2029' || c = '\u202F' || c = '\u205F' ||
  c = '\u3000' || c = '\uFEFF'

/-- `text.replace(/\s+/g, " ")`: every maximal run of whitespace characters
becomes a single space. -/
def collapseRuns : List Char → List Char
  | [] => []
  | [c] => if isJsWhitespace c then [' '] else [c]
  | c :: d :: rest =>
    if isJsWhitespace c then
      if isJsWhitespace d then collapseRuns (d :: rest)
      else ' ' :: collapseRuns (d :: rest)
    else c :: collapseRuns (d :: rest)

/-- JavaScript `String.prototype.trim`: strip leading and trailing
whitespace. -/
def jsTrim (l : List Char) : List Char :=
  ((l.dropWhile isJsWhitespace).reverse.dropWhile isJsWhitespace).reverse

/-- `text.replace(/\s+/g, " ").trim()` from the `record_fact` branch of
`onClientTool` (src/app/page.tsx line 318). -/
def normalizeWs (s : String) : String :=
  String.mk (jsTrim (collapseRuns s.data))

/-- `extractErrorDetail(payload, fallback)` (src/app/page.tsx lines
371-401), translated clause by clause: a falsy payload yields the fallback;
then a top-level string `error` is returned; then a string `message` on an
object-typed truthy `error`; then a top-level string `details`; then, when
`details` is a truthy object with an `error` property, a string
`details.error` or a string `details.error.message`; then a top-level
string `message`; otherwise the fallback. -/
def extractErrorDetail (payload : Option JValue) (fallback : String) : String :=
  match payload with
  | none => fallback
  | some p =>
    if !(jsTruthy p) then fallback
    else
      match propGet p "error" with
      | some (JValue.str s) => s
      | errOpt =>
        let fromErrorObj : Option String :=
          match errOpt with
          | some (JValue.obj ef) =>
            match getField ef "message" with
            | some (JValue.str m) => some m
            | _ => none
          | _ => none
        match fromErrorObj with
        | some m => m
        | none =>
          match propGet p "details" with
          | some (JValue.str s) => s
          | detOpt =>
            let fromDetails : Option String :=
              match detOpt with
              | some (JValue.obj df) =>
                match getField df "error" with
                | some (JValue.str s) => some s
                | some (JValue.obj nf) =>
                  match getField nf "message" with
                  | some (JValue.str m) => some m
                  | _ => none
                | _ => none
              | _ => none
            match fromDetails with
            | some s => s
            | none =>
              match propGet p "message" with
              | some (JValue.str s) => s
              | _ => fallback

/-- The `ErrorState` record of the component (src/app/page.tsx lines 62-67):
three independent error channels plus a retryable flag.  `setErrorState`
spread-merges an update into the current record, so every call site below
is translated as a record update touching exactly the fields the call
passes. -/
structure ErrorState where
  script : Option String
  session : Option String
  integration : Option String
  retryable : Bool
deriving DecidableEq

/-- `createInitialErrors()` (src/app/page.tsx lines 76-81). -/
def createInitialErrors : ErrorState :=
  { script := none, session := none, integration := none, retryable := false }

inductive ScriptStatus where
  | pending
  | ready
  | error
deriving DecidableEq

/-- The pieces of component state the claims are about: the
`processedFacts` ref (a set, modelled as a duplicate-free membership list),
the `errors` state, the `isInitializingSession` flag, the `scriptStatus`
state and the `widgetInstanceKey` counter. -/
structure PanelState where
  processedFacts : List String
  errors : ErrorState
  isInitializingSession : Bool
  scriptStatus : ScriptStatus
  widgetInstanceKey : Nat
deriving DecidableEq

/-- The fixed configuration-error message of the unconfigured-workflow path
(src/app/page.tsx line 207). -/
def configErrorMessage : String :=
  "Defina NEXT_PUBLIC_CHATKIT_WORKFLOW_ID no ambiente (Render)."

/-- The fixed missing-secret message (src/app/page.tsx line 258). -/
def missingSecretMessage : String := "Resposta sem client_secret"

/-- The fallback message used when a non-`Error` value is thrown
(src/app/page.tsx line 267). -/
def genericSessionFailureMessage : String := "Não foi possível iniciar a sessão."

/-- Character-list core of JavaScript `String.prototype.startsWith`. -/
def startsWithAux : List Char → List Char → Bool
  | _, [] => true
  | [], _ :: _ => false
  | c :: cs, d :: ds => c = d && startsWithAux cs ds

/-- JavaScript `s.startsWith(p)`, modelled over the character lists of the
two strings. -/
def jsStartsWith (s p : String) : Bool :=
  startsWithAux s.data p.data

/-- `isWorkflowConfigured` (src/app/page.tsx lines 170-172):
`Boolean(WORKFLOW_ID && !WORKFLOW_ID.startsWith("wf_replace"))`.
`WORKFLOW_ID` comes from the environment, so it is modelled as an optional
string; an absent or empty value is falsy. -/
def isWorkflowConfigured (workflowId : Option String) : Bool :=
  match workflowId with
  | none => false
  | some w => !w.isEmpty && !(jsStartsWith w "wf_replace")

/-- The raw text body of the create-session response after
`await response.text()`: empty, JSON-decodable to a value, or non-empty but
malformed (in which case `JSON.parse` throws, the error is logged, and
`data` keeps its initial `{}` value — src/app/page.tsx lines 242-249). -/
inductive RawBody where
  | empty
  | parsed (v : JValue)
  | malformed

/-- The outcome of the `fetch` call in `getClientSecret`: either a response
(with `ok`, `status`, `statusText` and a raw body) or a rejection
(`failure (some m)` for an `Error` with message `m`, `failure none` for a
thrown non-`Error` value). -/
inductive FetchOutcome where
  | response (ok : Bool) (status : Nat) (statusText : String) (body : RawBody)
  | failure (message : Option String)

/-- The value of the `data` variable after the body-decoding step:
initially `{}`, replaced by the parse result when the body is non-empty
and well-formed. -/
def decodeBody : RawBody → JValue
  | RawBody.empty => JValue.obj []
  | RawBody.malformed => JValue.obj []
  | RawBody.parsed v => v

/-- JavaScript truthiness of a `string | null` value: null and the empty
string are falsy.  This is the semantics of `!currentSecret` in
`getClientSecret` and of `blockingError || ...` / `blockingError && ...`
in the render step. -/
def optTruthy : Option String → Bool
  | none => false
  | some s => !s.isEmpty

/-- The message of the `TypeError` thrown when the success branch reads
`client_secret` off a decoded `null` body (src/app/page.tsx line 257):
property access on `null` throws in JavaScript, so HTTP 2xx with body
`null` never reaches the missing-secret check.  The exact text is the V8
wording; no theorem depends on its precise content, only on the fact that
this path produces the thrown `TypeError`'s message rather than the fixed
missing-secret message. -/
def nullSecretAccessMessage : String :=
  "Cannot read properties of null (reading 'client_secret')"

/-- The `catch` block's state effect: when mounted, merge
`{ session: detail, retryable: false }` into the error state
(src/app/page.tsx lines 268-270). -/
def setSessionError (mounted : Bool) (detail : String) (st : PanelState) : PanelState :=
  if mounted then
    { st with errors := { st.errors with session := some detail, retryable := false } }
  else st

/-- The `finally` block: clear the initializing flag only when mounted and
`!currentSecret` holds — JavaScript truthiness, so both a null and an
empty-string `currentSecret` count as a no-prior-secret call
(src/app/page.tsx lines 272-276). -/
def finallyStep (mounted : Bool) (currentSecret : Option String) (st : PanelState) : PanelState :=
  if mounted && !(optTruthy currentSecret) then { st with isInitializingSession := false }
  else st

/-- The result of one `getClientSecret` call: the component state after the
call, whether the network request was performed, and the call's outcome
(`Except.error m` models a rejection whose `Error` carries message `m`,
`Except.ok v` a resolution with the value read from `data.client_secret`). -/
structure GcsResult where
  state : PanelState
  fetched : Bool
  outcome : Except String JValue

/-- `getClientSecret(currentSecret)` (src/app/page.tsx lines 196-279) as a
function of the configured workflow id, the liveness flag `isMountedRef`
(constant across the call: no claim exercises a mid-call unmount), the
`currentSecret` argument, the network outcome, and the component state.
Control flow, in source order: the unconfigured-workflow early failure
(before the `try`, so the `finally` step does not run); when mounted, set
initializing for a no-prior-secret call (`!currentSecret` — JavaScript
truthiness, so an empty-string secret counts as no prior secret) and
optimistically clear session/integration errors; then the `try` body —
fetch, decode, the non-ok branch raising `extractErrorDetail`, the
`client_secret` read (which on a decoded `null` body throws a `TypeError`
caught by the `catch` block), the falsy-`client_secret` branch raising the
missing-secret message, the success branch clearing session/integration —
with the `catch` block recording the failure message and the `finally`
block clearing the initializing flag for no-prior-secret calls. -/
def getClientSecret (workflowId : Option String) (mounted : Bool)
    (currentSecret : Option String) (net : FetchOutcome) (st : PanelState) : GcsResult :=
  if !(isWorkflowConfigured workflowId) then
    let st1 :=
      if mounted then
        { st with
          errors := { st.errors with session := some configErrorMessage, retryable := false },
          isInitializingSession := false }
      else st
    { state := st1, fetched := false, outcome := Except.error configErrorMessage }
  else
    let st1 :=
      if mounted then
        let st0 :=
          if !(optTruthy currentSecret) then { st with isInitializingSession := true } else st
        { st0 with errors := { st0.errors with session := none, integration := none, retryable := false } }
      else st
    match net with
    | FetchOutcome.failure msg =>
      let detail := msg.getD genericSessionFailureMessage
      let st2 := setSessionError mounted detail st1
      { state := finallyStep mounted currentSecret st2, fetched := true,
        outcome := Except.error detail }
    | FetchOutcome.response ok _status statusText body =>
      let data := decodeBody body
      if !ok then
        let detail := extractErrorDetail (some data) statusText
        let st2 := setSessionError mounted detail st1
        { state := finallyStep mounted currentSecret st2, fetched := true,
          outcome := Except.error detail }
      else
        match data with
        | JValue.null =>
          let st2 := setSessionError mounted nullSecretAccessMessage st1
          { state := finallyStep mounted currentSecret st2, fetched := true,
            outcome := Except.error nullSecretAccessMessage }
        | _ =>
          match propGet data "client_secret" with
          | some v =>
            if jsTruthy v then
              let st2 :=
                if mounted then
                  { st1 with errors := { st1.errors with session := none, integration := none } }
                else st1
              { state := finallyStep mounted currentSecret st2, fetched := true,
                outcome := Except.ok v }
            else
              let st2 := setSessionError mounted missingSecretMessage st1
              { state := finallyStep mounted currentSecret st2, fetched := true,
                outcome := Except.error missingSecretMessage }
          | none =>
            let st2 := setSessionError mounted missingSecretMessage st1
            { state := finallyStep mounted currentSecret st2, fetched := true,
              outcome := Except.error missingSecretMessage }

/-- The detail message embedded when the 5-second timeout fires with no
registered custom element (src/app/page.tsx lines 155-157). -/
def scriptUnavailableMessage : String :=
  "O componente web do ChatKit não está disponível. Verifique se a URL do script está acessível."

/-- `handleLoaded` of the script effect (src/app/page.tsx lines 130-134):
when mounted, set the script status to ready and clear the script error
channel, regardless of the current status. -/
def handleLoaded (mounted : Bool) (st : PanelState) : PanelState :=
  if mounted then
    { st with scriptStatus := ScriptStatus.ready,
              errors := { st.errors with script := none } }
  else st

/-- `handleError` of the script effect (src/app/page.tsx lines 136-143):
when mounted, set the script status to error, set the script error channel
to `"Erro: " ++ String(event.detail ?? "erro desconhecido")` with
retryable false, and stop the initializing indicator — regardless of the
current status. -/
def handleError (mounted : Bool) (detail : Option JValue) (st : PanelState) : PanelState :=
  if mounted then
    let d :=
      match detail with
      | none => "erro desconhecido"
      | some JValue.null => "erro desconhecido"
      | some v => jsToString v
    { st with scriptStatus := ScriptStatus.error,
              errors := { st.errors with script := some ("Erro: " ++ d), retryable := false },
              isInitializingSession := false }
  else st

/-- Expiry of the 5-second timeout (src/app/page.tsx lines 151-160): if the
custom element is still not registered, invoke `handleError` with the fixed
unavailable-script detail; otherwise do nothing. -/
def timeoutFire (mounted : Bool) (elementRegistered : Bool) (st : PanelState) : PanelState :=
  if !elementRegistered then
    handleError mounted (some (JValue.str scriptUnavailableMessage)) st
  else st

/-- The synchronous part of the script effect body (src/app/page.tsx lines
148-161): if the custom element is already registered, invoke
`handleLoaded`; otherwise only arm the timeout (no state change here). -/
def effectRun (mounted : Bool) (elementRegistered : Bool) (st : PanelState) : PanelState :=
  if elementRegistered then handleLoaded mounted st else st

/-- The events the Script Availability Monitor reacts to: the two window
signals, timeout expiry, and the effect body's own inspection of the
custom-element registry. -/
inductive ScriptEvent where
  | loadedSignal
  | errorSignal (detail : Option JValue)
  | timeoutExpiry (elementRegistered : Bool)
  | effectInspect (elementRegistered : Bool)

/-- One step of the Script Availability Monitor. -/
def scriptMonitorStep (mounted : Bool) (ev : ScriptEvent) (st : PanelState) : PanelState :=
  match ev with
  | ScriptEvent.loadedSignal => handleLoaded mounted st
  | ScriptEvent.errorSignal d => handleError mounted d st
  | ScriptEvent.timeoutExpiry reg => timeoutFire mounted reg st
  | ScriptEvent.effectInspect reg => effectRun mounted reg st

/-- `handleResetChat` (src/app/page.tsx lines 184-194): clear the processed
facts, re-derive the script status from the custom-element registry (only
in a browser environment), set initializing true, reset the errors, and
increment the widget instance key. -/
def handleResetChat (browser : Bool) (elementRegistered : Bool) (st : PanelState) : PanelState :=
  { processedFacts := [],
    errors := createInitialErrors,
    isInitializingSession := true,
    scriptStatus :=
      if browser then (if elementRegistered then ScriptStatus.ready else ScriptStatus.pending)
      else st.scriptStatus,
    widgetInstanceKey := st.widgetInstanceKey + 1 }

/-- The `onResponseStart` hook (src/app/page.tsx line 326): merge
`{ integration: null, retryable: false }` into the error state. -/
def onResponseStart (st : PanelState) : PanelState :=
  { st with errors := { st.errors with integration := none, retryable := false } }

/-- `String(invocation.params.key ?? "")`: an absent or null parameter
collapses to the empty string, anything else goes through the JavaScript
string coercion. -/
def coerceParam (params : List (String × JValue)) (key : String) : String :=
  match getField params key with
  | none => ""
  | some JValue.null => ""
  | some v => jsToString v

/-- The observable result of one `onClientTool` invocation: the returned
`success` flag, the processed-fact set after the call, the argument of the
dispatched `onWidgetAction` save callback when one was dispatched, and the
scheme passed to `onThemeRequest` when it was invoked. -/
structure ToolCallResult where
  success : Bool
  facts : List String
  savedFact : Option (String × String)
  themeRequested : Option String
deriving DecidableEq

/-- `onClientTool` (src/app/page.tsx lines 296-324).  `switch_theme`
requires `params.theme` to be strictly equal to the string `"light"` or
`"dark"`; `record_fact` coerces `fact_id`/`fact_text` to strings, treats an
empty or already-processed id as a successful no-op, and otherwise records
the id and dispatches the save callback with the normalized text; any
other name reports failure. -/
def onClientTool (name : String) (params : List (String × JValue))
    (facts : List String) : ToolCallResult :=
  if name = "switch_theme" then
    match getField params "theme" with
    | some (JValue.str s) =>
      if s = "light" || s = "dark" then
        { success := true, facts := facts, savedFact := none, themeRequested := some s }
      else
        { success := false, facts := facts, savedFact := none, themeRequested := none }
    | _ => { success := false, facts := facts, savedFact := none, themeRequested := none }
  else if name = "record_fact" then
    let id := coerceParam params "fact_id"
    let text := coerceParam params "fact_text"
    if id = "" || facts.contains id then
      { success := true, facts := facts, savedFact := none, themeRequested := none }
    else
      { success := true, facts := id :: facts,
        savedFact := some (id, normalizeWs text), themeRequested := none }
  else
    { success := false, facts := facts, savedFact := none, themeRequested := none }

/-- Modelled from the spec's words (for comparison with
`extractErrorDetail`): "a top-level string `error`". -/
def specTopString (fields : List (String × JValue)) (key : String) : Option String :=
  match getField fields key with
  | some (JValue.str s) => some s
  | _ => none

/-- Modelled from the spec's words: "a string `error.message` on an object
`error`". -/
def specErrorMessage (fields : List (String × JValue)) : Option String :=
  match getField fields "error" with
  | some (JValue.obj ef) => specTopString ef "message"
  | _ => none

/-- Modelled from the spec's words: "a string `details.error` or a string
`details.error.message`" on an object `details`. -/
def specDetailsError (fields : List (String × JValue)) : Option String :=
  match getField fields "details" with
  | some (JValue.obj df) =>
    match getField df "error" with
    | some (JValue.str s) => some s
    | some (JValue.obj nf) => specTopString nf "message"
    | _ => none
  | _ => none

/-- The fallback chain exactly as the spec words it: the first hit among —
a top-level string `error`; a string `error.message` on an object `error`;
a top-level string `details`; a string `details.error` or a string
`details.error.message`; a top-level string `message` — else the HTTP
status text. -/
def specFallbackChain (fields : List (String × JValue)) (statusText : String) : String :=
  (List.findSome? id
    [specTopString fields "error",
     specErrorMessage fields,
     specTopString fields "details",
     specDetailsError fields,
     specTopString fields "message"]).getD statusText

/-- `errors.session ?? errors.integration` (src/app/page.tsx line 333):
nullish coalescing on the two channels. -/
def activeError (e : ErrorState) : Option String :=
  match e.session with
  | some s => some s
  | none => e.integration

/-- `errors.script ?? activeError` (src/app/page.tsx line 334). -/
def blockingError (e : ErrorState) : Option String :=
  match e.script with
  | some s => some s
  | none => activeError e

/-- The view model derived by the render step (src/app/page.tsx lines
346-366): the widget surface is hidden (class `pointer-events-none
opacity-0`) when `blockingError || isInitializingSession` is truthy; the
loading fallback message is non-null when `blockingError ||
!isInitializingSession` is falsy; the retry action is passed when
`blockingError && errors.retryable` is truthy; the overlay shows
`blockingError`. -/
structure ViewModel where
  widgetHidden : Bool
  loadingFallback : Bool
  retryExposed : Bool
  overlayError : Option String
deriving DecidableEq

/-- The render step's derivation of the view model from the error state and
the initializing flag. -/
def renderView (e : ErrorState) (isInitializing : Bool) : ViewModel :=
  let blocking := blockingError e
  { widgetHidden := optTruthy blocking || isInitializing,
    loadingFallback := !(optTruthy blocking || !isInitializing),
    retryExposed := optTruthy blocking && e.retryable,
    overlayError := blocking }

lemma chainMsg (m : Option JValue) (fb : String) :
    (match m with
     | some (JValue.str s) => s
     | _ => fb)
    = (List.findSome? id
        [(match m with | some (JValue.str s) => some s | _ => none)]).getD fb := by
  rcases m with _ | v
  · rfl
  · rcases v with s | n | b | _ | f | a <;> rfl

lemma chainRest (d m : Option JValue) (fb : String) :
    (match d with
     | some (JValue.str s) => s
     | detOpt =>
       let fromDetails : Option String :=
         match detOpt with
         | some (JValue.obj df) =>
           match getField df "error" with
           | some (JValue.str s) => some s
           | some (JValue.obj nf) =>
             match getField nf "message" with
             | some (JValue.str m) => some m
             | _ => none
           | _ => none
         | _ => none
       match fromDetails with
       | some s => s
       | none =>
         match m with
         | some (JValue.str s) => s
         | _ => fb)
    = (List.findSome? id
        [(match d with | some (JValue.str s) => some s | _ => none),
         (match d with
          | some (JValue.obj df) =>
            match getField df "error" with
            | some (JValue.str s) => some s
            | some (JValue.obj nf) =>
              match getField nf "message" with
              | some (JValue.str m) => some m
              | _ => none
            | _ => none
          | _ => none),
         (match m with | some (JValue.str s) => some s | _ => none)]).getD fb := by
  rcases d with _ | v
  · exact chainMsg m fb
  · rcases v with s | n | b | _ | df | a
    · rfl
    · exact chainMsg m fb
    · exact chainMsg m fb
    · exact chainMsg m fb
    · rcases he : getField df "error" with _ | w
      · simp only [he]; exact chainMsg m fb
      · rcases w with t | _ | _ | _ | nf | _
        · simp only [he]; rfl
        · simp only [he]; exact chainMsg m fb
        · simp only [he]; exact chainMsg m fb
        · simp only [he]; exact chainMsg m fb
        · rcases hm2 : getField nf "message" with _ | w3
          · simp only [he, hm2]; exact chainMsg m fb
          · rcases w3 with t3 | _ | _ | _ | _ | _
            · simp only [he, hm2]; rfl
            all_goals simp only [he, hm2]; exact chainMsg m fb
        · simp only [he]; exact chainMsg m fb
    · exact chainMsg m fb

lemma chainStage (e d m : Option JValue) (fb : String) :
    (match e with
     | some (JValue.str s) => s
     | errOpt =>
       let fromErrorObj : Option String :=
         match errOpt with
         | some (JValue.obj ef) =>
           match getField ef "message" with
           | some (JValue.str m) => some m
           | _ => none
         | _ => none
       match fromErrorObj with
       | some m => m
       | none =>
         match d with
         | some (JValue.str s) => s
         | detOpt =>
           let fromDetails : Option String :=
             match detOpt with
             | some (JValue.obj df) =>
               match getField df "error" with
               | some (JValue.str s) => some s
               | some (JValue.obj nf) =>
                 match getField nf "message" with
                 | some (JValue.str m) => some m
                 | _ => none
               | _ => none
             | _ => none
           match fromDetails with
           | some s => s
           | none =>
             match m with
             | some (JValue.str s) => s
             | _ => fb)
    = (List.findSome? id
        [(match e with | some (JValue.str s) => some s | _ => none),
         (match e with
          | some (JValue.obj ef) =>
            (match getField ef "message" with
             | some (JValue.str s) => some s
             | _ => none)
          | _ => none),
         (match d with | some (JValue.str s) => some s | _ => none),
         (match d with
          | some (JValue.obj df) =>
            match getField df "error" with
            | some (JValue.str s) => some s
            | some (JValue.obj nf) =>
              match getField nf "message" with
              | some (JValue.str m) => some m
              | _ => none
            | _ => none
          | _ => none),
         (match m with | some (JValue.str s) => some s | _ => none)]).getD fb := by
  rcases e with _ | v
  · exact chainRest d m fb
  · rcases v with s | n | b | _ | ef | a
    · rfl
    · exact chainRest d m fb
    · exact chainRest d m fb
    · exact chainRest d m fb
    · rcases hm : getField ef "message" with _ | w
      · simp only [hm]; exact chainRest d m fb
      · rcases w with t | _ | _ | _ | _ | _
        · simp only [hm]; rfl
        all_goals simp only [hm]; exact chainRest d m fb
    · exact chainRest d m fb

lemma extractErrorDetail_eq_specFallbackChain (fields : List (String × JValue)) (fb : String) :
    extractErrorDetail (some (JValue.obj fields)) fb = specFallbackChain fields fb :=
  chainStage (getField fields "error") (getField fields "details") (getField fields "message") fb

/-- Claim C1: for every non-successful HTTP response in `getClientSecret`,
the raised error detail is computed from the decoded payload by the
fallback chain in exactly the stated order (formalised as equality with
`specFallbackChain`, the chain as the spec words it), and for a response
with status 500 and body `{"error":"boom"}` the raised detail and the
resulting session error channel value are `"boom"`. -/
theorem C1_error_detail_fallback_chain
    (workflowId : Option String) (currentSecret : Option String)
    (st : PanelState) (fields : List (String × JValue))
    (status : Nat) (statusText : String)
    (hconf : isWorkflowConfigured workflowId = true) :
    extractErrorDetail (some (JValue.obj fields)) statusText
        = specFallbackChain fields statusText
    ∧ (getClientSecret workflowId true currentSecret
          (FetchOutcome.response false status statusText (RawBody.parsed (JValue.obj fields)))
          st).outcome
        = Except.error (specFallbackChain fields statusText)
    ∧ (getClientSecret workflowId true currentSecret
          (FetchOutcome.response false status statusText (RawBody.parsed (JValue.obj fields)))
          st).state.errors.session
        = some (specFallbackChain fields statusText)
    ∧ (getClientSecret workflowId true currentSecret
          (FetchOutcome.response false 500 "Internal Server Error"
            (RawBody.parsed (JValue.obj [("error", JValue.str "boom")])))
          st).state.errors.session
        = some "boom" := by
  refine ⟨extractErrorDetail_eq_specFallbackChain fields statusText, ?_, ?_, ?_⟩ <;>
    simp [getClientSecret, hconf, setSessionError, finallyStep, decodeBody,
      extractErrorDetail_eq_specFallbackChain] <;>
    repeat' split <;> rfl

/-- Witness for C1 at `workflowId = "wf_main"`, an initial call, the empty
initial state, and the 500/`{"error":"boom"}` response. -/
theorem C1_witness :
    (getClientSecret (some "wf_main") true none
        (FetchOutcome.response false 500 "Internal Server Error"
          (RawBody.parsed (JValue.obj [("error", JValue.str "boom")])))
        ⟨[], ⟨none, none, none, false⟩, true, ScriptStatus.pending, 0⟩).state.errors.session
      = some "boom" :=
  (C1_error_detail_fallback_chain (some "wf_main") none
    ⟨[], ⟨none, none, none, false⟩, true, ScriptStatus.pending, 0⟩
    [("error", JValue.str "boom")] 500 "Internal Server Error" (by decide)).2.2.2

/-- Claim C2: every `record_fact` invocation coerces `fact_id`/`fact_text`
to strings (absent collapsing to the empty string), is a successful no-op
when the id is empty or already processed, otherwise adds the id and
dispatches the save callback with the whitespace-normalized text while
returning success immediately; the normalization example holds, and for
the same fact id repeated within one thread the save callback fires at
most once (a second identical invocation dispatches nothing). -/
theorem C2_record_fact_dedup (params : List (String × JValue)) (facts : List String) :
    (onClientTool "record_fact" params facts).success = true
    ∧ (coerceParam params "fact_id" = "" ∨ coerceParam params "fact_id" ∈ facts →
        onClientTool "record_fact" params facts =
          { success := true, facts := facts, savedFact := none, themeRequested := none })
    ∧ (¬ coerceParam params "fact_id" = "" → coerceParam params "fact_id" ∉ facts →
        onClientTool "record_fact" params facts =
          { success := true, facts := coerceParam params "fact_id" :: facts,
            savedFact := some (coerceParam params "fact_id",
                               normalizeWs (coerceParam params "fact_text")),
            themeRequested := none })
    ∧ normalizeWs "a   b\n c" = "a b c"
    ∧ (onClientTool "record_fact" params
         (onClientTool "record_fact" params facts).facts).savedFact = none := by
  refine ⟨?_, ?_, ?_, by decide, ?_⟩
  · by_cases h1 : coerceParam params "fact_id" = "" <;>
      by_cases h2 : coerceParam params "fact_id" ∈ facts <;>
      simp [onClientTool, h1, h2]
  · rintro (h | h) <;> simp_all [onClientTool]
  · intro h1 h2
    simp [onClientTool, h1, h2]
  · by_cases h1 : coerceParam params "fact_id" = "" <;>
      by_cases h2 : coerceParam params "fact_id" ∈ facts <;>
      simp [onClientTool, h1, h2]

/-- Witness for C2: a fresh fact id with text needing normalization is
recorded and dispatched with the collapsed text. -/
theorem C2_witness :
    onClientTool "record_fact"
        [("fact_id", JValue.str "f1"), ("fact_text", JValue.str "a   b\n c")] []
      = { success := true, facts := ["f1"],
          savedFact := some ("f1", "a b c"), themeRequested := none } :=
  (C2_record_fact_dedup
      [("fact_id", JValue.str "f1"), ("fact_text", JValue.str "a   b\n c")] []).2.2.1
    (by decide) (by decide)

/-- Counterexample to claim C3 as stated: a refresh call (non-null
`currentSecret`) that hits the configuration-error path does modify the
initializing indicator — it sets it to false although it was true. -/
theorem C3_counterexample :
    (getClientSecret none true (some "secret")
        (FetchOutcome.response true 200 "OK" RawBody.empty)
        ⟨[], ⟨none, none, none, false⟩, true, ScriptStatus.ready, 0⟩).state.isInitializingSession
      = false
    ∧ (⟨[], ⟨none, none, none, false⟩, true, ScriptStatus.ready, 0⟩
        : PanelState).isInitializingSession = true := by
  decide

/-- Claim C3 as amended: for every call of `getClientSecret` with a truthy
`currentSecret` — non-null and non-empty, matching the source's
`!currentSecret` truthiness guard — and a configured workflow id, the
initializing indicator is never modified: not set to true at the start and
not cleared in the final step or on any failure path inside the exchange.
Excluded by the amendment: the configuration-error path clears the
indicator unconditionally, and a call whose `currentSecret` is the falsy
empty string is treated as an initial call. -/
theorem C3_refresh_initializing_frame
    (workflowId : Option String) (mounted : Bool) (secret : String)
    (net : FetchOutcome) (st : PanelState)
    (hconf : isWorkflowConfigured workflowId = true)
    (hne : ¬ secret = "") :
    (getClientSecret workflowId mounted (some secret) net st).state.isInitializingSession
      = st.isInitializingSession := by
  have hf : secret.isEmpty = false := by
    rw [Bool.eq_false_iff]
    exact fun hh => hne ((String.isEmpty_iff secret).mp hh)
  have ht : optTruthy (some secret) = true := by simp [optTruthy, hf]
  cases net <;> cases mounted <;>
    simp [getClientSecret, hconf, ht, setSessionError, finallyStep, decodeBody] <;>
    repeat' split <;>
    try simp_all [setSessionError, finallyStep]

/-- Witness for C3's amended theorem: a refresh call with a configured
workflow id and a non-empty secret leaves a true initializing flag true. -/
theorem C3_witness :
    (getClientSecret (some "wf_main") true (some "secret")
        (FetchOutcome.response false 500 "Internal Server Error" RawBody.empty)
        ⟨[], ⟨none, none, none, false⟩, true, ScriptStatus.ready, 0⟩).state.isInitializingSession
      = true :=
  C3_refresh_initializing_frame (some "wf_main") true "secret"
    (FetchOutcome.response false 500 "Internal Server Error" RawBody.empty)
    ⟨[], ⟨none, none, none, false⟩, true, ScriptStatus.ready, 0⟩ (by decide) (by decide)

/-- Claim C5: when the workflow id is absent or carries the placeholder
marker `wf_replace`, `getClientSecret` fails immediately with the fixed
configuration-error message: no network request is performed, the session
error channel is set to that message with retryable false, the
initializing indicator is stopped, and the failure is raised to the
caller. -/
theorem C5_unconfigured_workflow_fails_fast
    (workflowId : Option String) (currentSecret : Option String)
    (net : FetchOutcome) (st : PanelState)
    (hbad : workflowId = none ∨ ∃ w, workflowId = some w ∧ jsStartsWith w "wf_replace" = true) :
    (getClientSecret workflowId true currentSecret net st).fetched = false
    ∧ (getClientSecret workflowId true currentSecret net st).outcome
        = Except.error configErrorMessage
    ∧ (getClientSecret workflowId true currentSecret net st).state.errors.session
        = some configErrorMessage
    ∧ (getClientSecret workflowId true currentSecret net st).state.errors.retryable = false
    ∧ (getClientSecret workflowId true currentSecret net st).state.isInitializingSession
        = false := by
  have hconf : isWorkflowConfigured workflowId = false := by
    rcases hbad with h | ⟨w, hw, hpre⟩
    · simp [h, isWorkflowConfigured]
    · simp [hw, isWorkflowConfigured, hpre]
  simp [getClientSecret, hconf]

/-- Witness for C5 at the placeholder workflow id. -/
theorem C5_witness :
    (getClientSecret (some "wf_replace_me") true none
        (FetchOutcome.response true 200 "OK" RawBody.empty)
        ⟨[], ⟨none, none, none, false⟩, true, ScriptStatus.pending, 0⟩).fetched = false
    ∧ (getClientSecret (some "wf_replace_me") true none
        (FetchOutcome.response true 200 "OK" RawBody.empty)
        ⟨[], ⟨none, none, none, false⟩, true, ScriptStatus.pending, 0⟩).state.errors.session
        = some configErrorMessage := by
  have h := C5_unconfigured_workflow_fails_fast (some "wf_replace_me") none
    (FetchOutcome.response true 200 "OK" RawBody.empty)
    ⟨[], ⟨none, none, none, false⟩, true, ScriptStatus.pending, 0⟩
    (Or.inr ⟨"wf_replace_me", rfl, by decide⟩)
  exact ⟨h.1, h.2.2.1⟩

/-- Counterexample to claim C6 as stated: a successful response whose body
is JSON `null` decodes to a payload with no `client_secret` field at all,
yet the call does not produce the fixed missing-secret message — the
`client_secret` read on the `null` payload throws a `TypeError`, and that
error's message becomes the session error and the raised failure. -/
theorem C6_counterexample :
    propGet (decodeBody (RawBody.parsed JValue.null)) "client_secret" = none
    ∧ ¬ ((getClientSecret (some "wf_main") true none
          (FetchOutcome.response true 200 "OK" (RawBody.parsed JValue.null))
          ⟨[], ⟨none, none, none, false⟩, true, ScriptStatus.pending, 0⟩).state.errors.session
        = some missingSecretMessage)
    ∧ (getClientSecret (some "wf_main") true none
        (FetchOutcome.response true 200 "OK" (RawBody.parsed JValue.null))
        ⟨[], ⟨none, none, none, false⟩, true, ScriptStatus.pending, 0⟩).state.errors.session
      = some nullSecretAccessMessage
    ∧ (getClientSecret (some "wf_main") true none
        (FetchOutcome.response true 200 "OK" (RawBody.parsed JValue.null))
        ⟨[], ⟨none, none, none, false⟩, true, ScriptStatus.pending, 0⟩).outcome
      = Except.error nullSecretAccessMessage :=
  ⟨rfl, by decide, rfl, rfl⟩

/-- Claim C6 as amended: for every successful HTTP response whose decoded
payload is not JSON `null` and lacks a `client_secret` field,
`getClientSecret` raises a failure with the fixed missing-secret message
and the session error channel is set to exactly that message with
retryable false.  (For a decoded `null` payload the `client_secret` read
itself throws a `TypeError` whose message, not the fixed message, is
surfaced.) -/
theorem C6_missing_client_secret
    (workflowId : Option String) (currentSecret : Option String)
    (st : PanelState) (status : Nat) (statusText : String) (body : RawBody)
    (hconf : isWorkflowConfigured workflowId = true)
    (hnn : ¬ decodeBody body = JValue.null)
    (hmiss : propGet (decodeBody body) "client_secret" = none) :
    (getClientSecret workflowId true currentSecret
        (FetchOutcome.response true status statusText body) st).outcome
      = Except.error missingSecretMessage
    ∧ (getClientSecret workflowId true currentSecret
        (FetchOutcome.response true status statusText body) st).state.errors.session
      = some missingSecretMessage
    ∧ (getClientSecret workflowId true currentSecret
        (FetchOutcome.response true status statusText body) st).state.errors.retryable
      = false := by
  rcases hb : decodeBody body with s | n | b2 | _ | f | a <;>
    first
      | exact absurd hb hnn
      | (rw [hb] at hmiss
         refine ⟨?_, ?_, ?_⟩ <;>
           simp [getClientSecret, hconf, hb, hmiss, setSessionError, finallyStep] <;>
             repeat' split <;> rfl)

/-- Witness for C6: HTTP 200 with body `{}`. -/
theorem C6_witness :
    (getClientSecret (some "wf_main") true none
        (FetchOutcome.response true 200 "OK" (RawBody.parsed (JValue.obj [])))
        ⟨[], ⟨none, none, none, false⟩, true, ScriptStatus.pending, 0⟩).outcome
      = Except.error missingSecretMessage
    ∧ (getClientSecret (some "wf_main") true none
        (FetchOutcome.response true 200 "OK" (RawBody.parsed (JValue.obj [])))
        ⟨[], ⟨none, none, none, false⟩, true, ScriptStatus.pending, 0⟩).state.errors.session
      = some missingSecretMessage := by
  have h := C6_missing_client_secret (some "wf_main") none
    ⟨[], ⟨none, none, none, false⟩, true, ScriptStatus.pending, 0⟩
    200 "OK" (RawBody.parsed (JValue.obj []))
    (by decide) (fun hh => JValue.noConfusion hh) rfl
  exact ⟨h.1, h.2.1⟩

/-- Counterexample to claim C4 as stated: once ready, the status can still
change — a late `chatkit-script-error` window signal moves ready to error,
because `handleError` is not guarded by the current status. -/
theorem C4_counterexample :
    (⟨[], ⟨none, none, none, false⟩, false, ScriptStatus.ready, 0⟩
        : PanelState).scriptStatus = ScriptStatus.ready
    ∧ (scriptMonitorStep true (ScriptEvent.errorSignal none)
        ⟨[], ⟨none, none, none, false⟩, false, ScriptStatus.ready, 0⟩).scriptStatus
      = ScriptStatus.error := by
  decide

/-- Claim C4 as amended: the loaded signal (or an effect inspection that
finds the element registered) always sets the status to ready and the
error signal (or timeout expiry with no registered element) always sets it
to error, regardless of the current status — so the pending→ready and
pending→error transitions of the claim exist, but a late external signal
can also move ready→error or error→ready; apart from these signals (and
reset) no monitor event changes the state, and nothing happens when
unmounted. -/
theorem C4_script_status_transitions (st : PanelState) (d : Option JValue) (ev : ScriptEvent) :
    (scriptMonitorStep true ScriptEvent.loadedSignal st).scriptStatus = ScriptStatus.ready
    ∧ (scriptMonitorStep true (ScriptEvent.errorSignal d) st).scriptStatus = ScriptStatus.error
    ∧ (scriptMonitorStep true (ScriptEvent.timeoutExpiry false) st).scriptStatus
        = ScriptStatus.error
    ∧ scriptMonitorStep true (ScriptEvent.timeoutExpiry true) st = st
    ∧ (scriptMonitorStep true (ScriptEvent.effectInspect true) st).scriptStatus
        = ScriptStatus.ready
    ∧ scriptMonitorStep true (ScriptEvent.effectInspect false) st = st
    ∧ scriptMonitorStep false ev st = st := by
  refine ⟨rfl, rfl, rfl, rfl, rfl, rfl, ?_⟩
  cases ev <;> simp [scriptMonitorStep, handleLoaded, handleError, timeoutFire, effectRun]

/-- Counterexample to claim C7 as stated: with a blocking error that is the
empty string (non-null!) and the session not initializing, the widget is
not hidden and the retry action is not exposed even though the error state
is retryable — the render step tests JavaScript truthiness, not
non-nullness. -/
theorem C7_counterexample :
    blockingError ⟨some "", none, none, true⟩ = some ""
    ∧ (renderView ⟨some "", none, none, true⟩ false).widgetHidden = false
    ∧ (renderView ⟨some "", none, none, true⟩ false).retryExposed = false := by
  decide

/-- Claim C7 as amended: `blockingError` is the nullish-coalescing chain
script ?? session ?? integration exactly as claimed; but the loading
fallback, the hidden widget surface and the retry affordance are governed
by the truthiness of `blockingError` (non-null and non-empty), not by mere
non-nullness: the fallback shows exactly when the blocking error is not
truthy and the session is initializing, the surface is hidden exactly when
the blocking error is truthy or the session is initializing, and retry is
exposed exactly when the blocking error is truthy and retryable is set. -/
lemma string_isEmpty_false_iff (s : String) : (s.isEmpty = false) ↔ ¬ s = "" := by
  rw [Bool.eq_false_iff]
  exact not_congr (String.isEmpty_iff s)

theorem C7_view_model (e : ErrorState) (isInit : Bool) :
    (∀ s, e.script = some s → blockingError e = some s)
    ∧ (e.script = none → ∀ s, e.session = some s → blockingError e = some s)
    ∧ (e.script = none → e.session = none → blockingError e = e.integration)
    ∧ ((renderView e isInit).overlayError = blockingError e)
    ∧ ((renderView e isInit).widgetHidden = true ↔
        (∃ s, blockingError e = some s ∧ s ≠ "") ∨ isInit = true)
    ∧ ((renderView e isInit).loadingFallback = true ↔
        ¬ (∃ s, blockingError e = some s ∧ s ≠ "") ∧ isInit = true)
    ∧ ((renderView e isInit).retryExposed = true ↔
        (∃ s, blockingError e = some s ∧ s ≠ "") ∧ e.retryable = true) := by
  obtain ⟨scr, ses, intg, r⟩ := e
  rcases scr with _ | s1 <;> rcases ses with _ | s2 <;> rcases intg with _ | s3 <;>
    cases isInit <;> cases r <;>
      simp [renderView, blockingError, activeError, optTruthy, String.isEmpty_iff,
        string_isEmpty_false_iff]

/-- Witness for C7's amended theorem: a non-empty script error with the
retryable flag set hides the widget and exposes retry. -/
theorem C7_witness :
    ((renderView ⟨some "boom", none, none, true⟩ false).widgetHidden = true)
    ∧ ((renderView ⟨some "boom", none, none, true⟩ false).retryExposed = true) := by
  have h := C7_view_model ⟨some "boom", none, none, true⟩ false
  exact ⟨h.2.2.2.2.1.mpr (Or.inl ⟨"boom", rfl, by decide⟩),
         h.2.2.2.2.2.2.mpr ⟨⟨"boom", rfl, by decide⟩, rfl⟩⟩

/-- Claim C8: `switch_theme` invokes the theme callback and succeeds
exactly when `params.theme` is strictly the string "light" or "dark"; any
other theme value fails without invoking the callback, and any invocation
name other than `switch_theme`/`record_fact` fails. -/
theorem C8_switch_theme_strict (params : List (String × JValue)) (facts : List String)
    (name : String) :
    (getField params "theme" = some (JValue.str "light") →
      onClientTool "switch_theme" params facts =
        { success := true, facts := facts, savedFact := none, themeRequested := some "light" })
    ∧ (getField params "theme" = some (JValue.str "dark") →
      onClientTool "switch_theme" params facts =
        { success := true, facts := facts, savedFact := none, themeRequested := some "dark" })
    ∧ (∀ v, getField params "theme" = some v →
        v ≠ JValue.str "light" → v ≠ JValue.str "dark" →
        onClientTool "switch_theme" params facts =
          { success := false, facts := facts, savedFact := none, themeRequested := none })
    ∧ (getField params "theme" = none →
        onClientTool "switch_theme" params facts =
          { success := false, facts := facts, savedFact := none, themeRequested := none })
    ∧ (¬ name = "switch_theme" → ¬ name = "record_fact" →
        onClientTool name params facts =
          { success := false, facts := facts, savedFact := none, themeRequested := none }) := by
  refine ⟨?_, ?_, ?_, ?_, ?_⟩
  · intro h; simp [onClientTool, h]
  · intro h; simp [onClientTool, h]
  · rintro v h hvl hvd
    rcases v with s | n | b | _ | f | a
    · have hs1 : ¬ s = "light" := fun hh => hvl (by rw [hh])
      have hs2 : ¬ s = "dark" := fun hh => hvd (by rw [hh])
      simp [onClientTool, h, hs1, hs2]
    all_goals simp [onClientTool, h]
  · intro h; simp [onClientTool, h]
  · intro h1 h2; simp [onClientTool, h1, h2]

/-- Witness for C8: theme "light" is accepted and requested. -/
theorem C8_witness :
    onClientTool "switch_theme" [("theme", JValue.str "light")] []
      = { success := true, facts := [], savedFact := none, themeRequested := some "light" } :=
  (C8_switch_theme_strict [("theme", JValue.str "light")] [] "other").1 rfl

/-- Claim C9: after a reset the processed-fact set is empty (so a
previously processed fact id is processed again and the save callback
fires), the script status is re-derived from the element registry, the
initializing flag is true, all error channels are null with retryable
false, and the widget instance key is one greater than before. -/
theorem C9_reset_state (registered : Bool) (st : PanelState) :
    (handleResetChat true registered st).processedFacts = []
    ∧ (handleResetChat true registered st).scriptStatus
        = (if registered then ScriptStatus.ready else ScriptStatus.pending)
    ∧ (handleResetChat true registered st).isInitializingSession = true
    ∧ (handleResetChat true registered st).errors
        = { script := none, session := none, integration := none, retryable := false }
    ∧ (handleResetChat true registered st).widgetInstanceKey = st.widgetInstanceKey + 1
    ∧ (∀ params, ¬ coerceParam params "fact_id" = "" →
        (onClientTool "record_fact" params
            (handleResetChat true registered st).processedFacts).savedFact
          = some (coerceParam params "fact_id",
                  normalizeWs (coerceParam params "fact_text"))) := by
  refine ⟨rfl, rfl, rfl, rfl, rfl, ?_⟩
  intro params h
  simp [handleResetChat, onClientTool, h]

/-- Witness for C9: resetting a dirtied state (fact "f1" processed, errors
set, key 5) and re-submitting "f1" fires the save callback again. -/
theorem C9_witness :
    (handleResetChat true true
        ⟨["f1"], ⟨some "e1", some "e2", some "e3", true⟩, false, ScriptStatus.error, 5⟩).widgetInstanceKey
      = 6
    ∧ (onClientTool "record_fact" [("fact_id", JValue.str "f1")]
        (handleResetChat true true
          ⟨["f1"], ⟨some "e1", some "e2", some "e3", true⟩, false,
            ScriptStatus.error, 5⟩).processedFacts).savedFact
      = some ("f1", "") :=
  ⟨(C9_reset_state true
      ⟨["f1"], ⟨some "e1", some "e2", some "e3", true⟩, false, ScriptStatus.error, 5⟩).2.2.2.2.1,
   (C9_reset_state true
      ⟨["f1"], ⟨some "e1", some "e2", some "e3", true⟩, false, ScriptStatus.error, 5⟩).2.2.2.2.2
     [("fact_id", JValue.str "f1")] (by decide)⟩

/-- Claim C10 (implicit): every `onResponseStart` invocation sets the
integration error channel to null and the retryable flag to false while
leaving the script and session channels, the processed-fact set, the
initializing flag, the script status and the widget instance key
unchanged. -/
theorem C10_response_start_frame (st : PanelState) :
    (onResponseStart st).errors.integration = none
    ∧ (onResponseStart st).errors.retryable = false
    ∧ (onResponseStart st).errors.script = st.errors.script
    ∧ (onResponseStart st).errors.session = st.errors.session
    ∧ (onResponseStart st).processedFacts = st.processedFacts
    ∧ (onResponseStart st).isInitializingSession = st.isInitializingSession
    ∧ (onResponseStart st).scriptStatus = st.scriptStatus
    ∧ (onResponseStart st).widgetInstanceKey = st.widgetInstanceKey :=
  ⟨rfl, rfl, rfl, rfl, rfl, rfl, rfl, rfl⟩
